import Mathlib

/-!
Verification of the form-control and result-model layer of twill
(`src/twill/utils.py`), shallowly embedded in Lean.

The embedding translates the Python functions of `utils.py` directly:
- `Control`, `all_the_same_submit`, `all_the_same_checkbox`, `unique_match`
  model the match-uniqueness checkers (lines 276-316; the Python names carry
  a leading underscore);
- `make_boolean` models boolean coercion (lines 180-204);
- `set_form_control_value` models control-value assignment (lines 207-273)
  over a closed variant type of controls, with set-valued control values
  modelled as duplicate-free lists, the caught `KeyError`/`ValueError`
  on absent removal modelled as the no-op it amounts to, and the
  unspecified Python 2 dict iteration order of `full_options.iteritems()`
  abstracted as a pair-rearranging parameter;
- `Document`, `resultForms`, `wrapper_title`, `wrapper_form` model the
  `ResultWrapper` construction and its `title`/`form` views (lines 48-124),
  with `re.search` abstracted as a boolean-valued parameter.
-/

namespace Twill

/-- Python's `str.strip` whitespace set: space, \t, \n, \r, \v, \f. -/
def isPySpace (c : Char) : Bool :=
  c = ' ' || c = '\t' || c = '\n' || c = '\r' || c = '\x0b' || c = '\x0c'

/-- Python's `str.lower()` (ASCII range; the source only feeds it
ASCII-insensitive keyword comparisons). -/
def pyLower (s : String) : String := String.mk (s.toList.map Char.toLower)

/-- Python's `str.strip()`: drop leading and trailing whitespace. -/
def pyStrip (s : String) : String :=
  String.mk (((s.toList.dropWhile isPySpace).reverse.dropWhile isPySpace).reverse)

/-- Python's `s.startswith(pre)` over the character list. -/
def pyStartsWith (s pre : String) : Bool :=
  s.toList.take pre.toList.length = pre.toList

/-- Python's `s[n:]` over the character list. -/
def pyDrop (s : String) (n : Nat) : String := String.mk (s.toList.drop n)

/-- Digit-string to number; `none` unless the list is one or more digits. -/
def digitsToNat : List Char → Option Nat
  | [] => none
  | cs =>
    if cs.all Char.isDigit then
      some (cs.foldl (fun a c => a * 10 + (c.toNat - 48)) 0)
    else none

/-- Python's `int(s)` on a string: surrounding whitespace allowed, optional
sign, then one or more decimal digits; `none` models the `ValueError`. -/
def pyParseInt (s : String) : Option Int :=
  match (pyStrip s).toList with
  | '+' :: rest => (digitsToNat rest).map Int.ofNat
  | '-' :: rest => (digitsToNat rest).map (fun n => -(n : Int))
  | cs => (digitsToNat cs).map Int.ofNat

/-- Model of `make_boolean` (utils.py lines 180-204): lower-case and strip, then try
`true`/`false`, integer parse (nonzero is true), `+`/`-`, `on`/`off`;
anything else raises `TwillException`, modelled as `.error`. -/
def make_boolean (value : String) : Except String Bool :=
  let v := pyStrip (pyLower value)
  if v = "true" || v = "false" then .ok (v = "true")
  else
    match pyParseInt v with
    | some ival => .ok (ival != 0)
    | none =>
      if v = "+" || v = "-" then .ok (v = "+")
      else if v = "on" || v = "off" then .ok (v = "on")
      else .error ("unable to convert " ++ v ++ " into true/false")

/-- A form control as seen by the match-uniqueness helpers: its `type`
attribute, `name` and current `value`. -/
structure Control where
  type : String
  name : String
  value : String
deriving DecidableEq, Repr

/-- Loop of `_all_the_same_submit`: the `Option` state is the
`name = value = None` initialisation of the Python code. -/
def allTheSameSubmitAux : Option (String × String) → List Control → Bool
  | _, [] => true
  | none, m :: rest =>
    if m.type = "submit" || m.type = "hidden" then
      allTheSameSubmitAux (some (m.name, m.value)) rest
    else false
  | some (n, v), m :: rest =>
    if m.type = "submit" || m.type = "hidden" then
      if m.name = n && m.value = v then allTheSameSubmitAux (some (n, v)) rest
      else false
    else false

/-- Model of `_all_the_same_submit` (utils.py lines 276-290): every match has type
`submit` or `hidden` and all share one name and one value. -/
def all_the_same_submit (ms : List Control) : Bool :=
  allTheSameSubmitAux none ms

/-- Loop of `_all_the_same_checkbox`: the `Option` state is the
`name = None` initialisation of the Python code. -/
def allTheSameCheckboxAux : Option String → List Control → Bool
  | _, [] => true
  | none, m :: rest =>
    if m.type = "checkbox" || m.type = "hidden" then
      allTheSameCheckboxAux (some m.name) rest
    else false
  | some n, m :: rest =>
    if m.type = "checkbox" || m.type = "hidden" then
      if m.name = n then allTheSameCheckboxAux (some n) rest
      else false
    else false

/-- Model of `_all_the_same_checkbox` (utils.py lines 293-310): every match has type
`checkbox` or `hidden` and all share one name (values may differ). -/
def all_the_same_checkbox (ms : List Control) : Bool :=
  allTheSameCheckboxAux none ms

/-- Model of `unique_match` (utils.py lines 313-316). -/
def unique_match (ms : List Control) : Bool :=
  ms.length == 1 || all_the_same_checkbox ms || all_the_same_submit ms

/-- One `<option>` of a select element, as the source reads it: `text` is the
child element's display text (`c.text`), `optValue` the corresponding entry
of `control.value_options` (the submit value). -/
structure SelectOption where
  text : String
  optValue : String
deriving DecidableEq, Repr

/-- A control as dispatched by `set_form_control_value`: an element with a
`type` attribute (checkbox, submit, image, text, hidden, ...), an
`html.CheckboxGroup` (set-valued), an `html.SelectElement` (set-valued, with
its option list), or anything else. -/
inductive FormControl where
  | typed (type : String) (checked : Bool) (value : String)
  | checkboxGroup (value : List String)
  | selectElem (options : List SelectOption) (value : List String)
  | other
deriving DecidableEq, Repr

/-- Adding to a set-valued control value (`control.value.add`). -/
def setValueAdd (s : List String) (v : String) : List String :=
  if s.contains v then s else s ++ [v]

/-- Removing from a set-valued control value; the source wraps
`control.value.remove` in `try`/`except KeyError` (checkbox groups) or
`except ValueError` (selects), so removal of an absent member is a no-op. -/
def setValueRemove (s : List String) (v : String) : List String :=
  s.filter (fun x => x ≠ v)

/-- One step of building a Python `dict`: a repeated key overwrites the
stored value, a fresh key is appended. -/
def pyDictInsert (d : List (String × String)) (kv : String × String) :
    List (String × String) :=
  if d.any (fun p => p.1 = kv.1) then
    d.map (fun p => if p.1 = kv.1 then (p.1, kv.2) else p)
  else d ++ [kv]

/-- Python's `dict(pairs)` as an association list in insertion order. -/
def pyDict (l : List (String × String)) : List (String × String) :=
  l.foldl pyDictInsert []

/-- Model of `set_form_control_value` (utils.py lines 207-273).  Returns the updated
control, or `.error` for the raised `TwillException`.  Dispatch follows the
source: `hasattr(control, 'type')` first, then `CheckboxGroup`, then
`SelectElement`, else raise.  For selects, `full_options` is the Python dict
`dict(zip(option_names, options))` of stripped display texts to stripped
submit values; the loop `for name, opt in full_options.iteritems()` visits
its pairs in the hash-determined, unspecified order of a Python 2 dict,
abstracted here as the parameter `dictOrder` applied to the pairs (theorems
assume at most that `dictOrder` permutes them); the `for`/`else` raises
when no pair matches the (prefix-stripped) value. -/
def set_form_control_value
    (dictOrder : List (String × String) → List (String × String))
    (control : FormControl) (value : String) :
    Except String FormControl :=
  match control with
  | .typed t checked v =>
    if t = "checkbox" then
      match make_boolean value with
      | .ok b => .ok (.typed t b v)
      | .error _ => .ok (.typed t checked v)
    else if t = "submit" || t = "image" then
      .ok (.typed t checked v)
    else
      .ok (.typed t checked value)
  | .checkboxGroup vs =>
    if pyStartsWith value "-" then
      .ok (.checkboxGroup (setValueRemove vs (pyDrop value 1)))
    else
      let v := if pyStartsWith value "+" then pyDrop value 1 else value
      .ok (.checkboxGroup (setValueAdd vs v))
  | .selectElem opts vs =>
    let add := !(pyStartsWith value "-")
    let v :=
      if pyStartsWith value "-" then pyDrop value 1
      else if pyStartsWith value "+" then pyDrop value 1
      else value
    let full_options :=
      pyDict (opts.map (fun o => (pyStrip o.text, pyStrip o.optValue)))
    match (dictOrder full_options).find? (fun p => v = p.1 || v = p.2) with
    | some p =>
      .ok (.selectElem opts
        (if add then setValueAdd vs p.2 else setValueRemove vs p.2))
    | none => .error "Attempt to set an invalid value"
  | .other => .error "Attempt to set value on invalid control"

/-- An element of the parsed tree, with the pieces the `ResultWrapper` code
inspects: its tag, whether it has a `<form>` ancestor (the xpath
`ancestor::form` test), and its text content. -/
structure Element where
  tag : String
  insideForm : Bool
  text : String
deriving DecidableEq, Repr

/-- A form of the page: its `id` and `name` attributes (absent attributes
are `none`) and its controls in document order. -/
structure Form where
  idAttr : Option String
  nameAttr : Option String
  controls : List Element
deriving DecidableEq, Repr

/-- A parsed document: all elements in document order, plus the parser's
form list (`self.lxml.forms`) in document order. -/
structure Document where
  elements : List Element
  docForms : List Form
deriving DecidableEq, Repr

/-- The xpath query `//input[not(ancestor::form)]` of
`ResultWrapper.__init__` (utils.py line 51): `input` elements without a
form ancestor, in document order. -/
def orphanInputs (d : Document) : List Element :=
  d.elements.filter (fun e => e.tag = "input" && !e.insideForm)

/-- Model of the `ResultWrapper.__init__` forms construction (utils.py lines 51-61): when
orphans exist, serialize them into a synthetic `<form>` (no id, no name),
reparse, and put that form first, followed by the document forms; otherwise
the document forms unchanged. -/
def resultForms (d : Document) : List Form :=
  let orphans := orphanInputs d
  if orphans.isEmpty then d.docForms
  else ⟨none, none, orphans⟩ :: d.docForms

/-- Model of `ResultWrapper.title` (utils.py lines 79-82): the text of the first
`title` element; the `[0]` on an empty selector result raises, modelled as
`none`. -/
def wrapper_title (d : Document) : Option String :=
  match d.elements.filter (fun e => e.tag = "title") with
  | [] => none
  | t :: _ => some t.text

/-- The form name argument of `ResultWrapper.form`: a Python `int` or `str`. -/
inductive FormName where
  | num (n : Int)
  | str (s : String)
deriving DecidableEq, Repr

/-- The final `try int(formname) - 1` block of `ResultWrapper.form`
(utils.py lines 116-124): `none` when the parse failed, the bounds check
fails (`IndexError`), or on out-of-range; otherwise `forms[formnum]`. -/
def formByNumber (forms : List Form) : Option Int → Option Form
  | none => none
  | some n =>
    let formnum := n - 1
    if 0 ≤ formnum ∧ formnum < forms.length then forms.get? formnum.toNat
    else none

/-- The source's id scan condition `form_id and form_id == formname`: the
id attribute must be present, truthy (non-empty) and equal to the name. -/
def formIdMatches (s : String) (f : Form) : Bool :=
  match f.idAttr with
  | some i => i ≠ "" && i = s
  | none => false

/-- The source's name scan condition `name and regex.search(name)`: the
name attribute must be present, truthy (non-empty) and matched by the
pattern, with `re.search` abstracted as `search`. -/
def formNameMatches (search : String → String → Bool) (s : String)
    (f : Form) : Bool :=
  match f.nameAttr with
  | some n => n ≠ "" && search s n
  | none => false

/-- Model of `ResultWrapper.form` (utils.py lines 98-124), with `re.search`
abstracted as the parameter `search pattern text`.  For a string name:
first the exact-id scan (skipping falsy ids, i.e. absent or empty), then
the name-regex scan (skipping falsy names), then the integer parse; for an
integer name only the integer branch runs. -/
def wrapper_form (search : String → String → Bool) (forms : List Form) :
    FormName → Option Form
  | .num n => formByNumber forms (some n)
  | .str s =>
    match forms.find? (formIdMatches s) with
    | some f => some f
    | none =>
      match forms.find? (formNameMatches search s) with
      | some f => some f
      | none => formByNumber forms (pyParseInt s)

/-- The source's select-option match test: the (prefix-stripped) value
against an option's stripped display text or stripped submit value. -/
def optionMatches (v : String) (o : SelectOption) : Bool :=
  v = pyStrip o.text || v = pyStrip o.optValue

/-! ## Helper lemmas -/

/-- Inserting a fresh key into a Python dict appends the pair. -/
theorem pyDictInsert_fresh (d : List (String × String)) (kv : String × String)
    (h : ∀ p ∈ d, ¬ p.1 = kv.1) : pyDictInsert d kv = d ++ [kv] := by
  have hany : d.any (fun p => decide (p.1 = kv.1)) = false := by
    simp only [List.any_eq_false, decide_eq_true_eq]
    exact h
  simp [pyDictInsert, hany]

/-- Folding dict insertion over pairs with keys disjoint from the
accumulator and mutually distinct just appends the pairs. -/
theorem pyDict_foldl_nodup (l : List (String × String)) :
    ∀ acc : List (String × String),
      (acc.map Prod.fst ++ l.map Prod.fst).Nodup →
      l.foldl pyDictInsert acc = acc ++ l := by
  induction l with
  | nil => intro acc _; simp
  | cons kv t ih =>
    intro acc h
    have hdisj := List.disjoint_of_nodup_append h
    have hfresh : ∀ p ∈ acc, ¬ p.1 = kv.1 := by
      intro p hp hpe
      exact hdisj (List.mem_map_of_mem Prod.fst hp)
        (by rw [hpe]; exact List.mem_cons_self _ _)
    have h' : ((acc ++ [kv]).map Prod.fst ++ t.map Prod.fst).Nodup := by
      simpa [List.append_assoc] using h
    rw [List.foldl_cons, pyDictInsert_fresh acc kv hfresh, ih _ h']
    simp

/-- A Python dict built from pairs with pairwise distinct keys is the pair
list itself. -/
theorem pyDict_eq_self (l : List (String × String))
    (h : (l.map Prod.fst).Nodup) : pyDict l = l := by
  simpa [pyDict] using pyDict_foldl_nodup l [] (by simpa using h)

/-- The head of a filtered list is the first element passing the test. -/
theorem head?_filter_eq_find? {α : Type} (p : α → Bool) (l : List α) :
    (l.filter p).head? = l.find? p := by
  induction l with
  | nil => rfl
  | cons a t ih =>
    by_cases h : p a <;> simp [List.filter_cons, List.find?_cons, h, ih]

/-- The `_all_the_same_submit` loop accepts any tail whose members are all
submit/hidden and agree with the stored name and value. -/
theorem allTheSameSubmitAux_same (ms : List Control) (n v : String)
    (h : ∀ m ∈ ms, (m.type = "submit" ∨ m.type = "hidden") ∧
      m.name = n ∧ m.value = v) :
    allTheSameSubmitAux (some (n, v)) ms = true := by
  induction ms with
  | nil => rfl
  | cons m rest ih =>
    obtain ⟨ht, hn, hv⟩ := h m (List.mem_cons_self m rest)
    have hrest := fun x hx => h x (List.mem_cons_of_mem m hx)
    rcases ht with ht | ht <;> simp [allTheSameSubmitAux, ht, hn, hv, ih hrest]

/-- If all matches are submit/hidden and pairwise share name and value,
`_all_the_same_submit` returns `True`. -/
theorem all_the_same_submit_of_same (ms : List Control)
    (hty : ∀ m ∈ ms, m.type = "submit" ∨ m.type = "hidden")
    (hsame : ∀ m ∈ ms, ∀ m' ∈ ms, m.name = m'.name ∧ m.value = m'.value) :
    all_the_same_submit ms = true := by
  cases ms with
  | nil => rfl
  | cons m rest =>
    have hm : m ∈ m :: rest := List.mem_cons_self m rest
    have haux : allTheSameSubmitAux (some (m.name, m.value)) rest = true := by
      refine allTheSameSubmitAux_same rest m.name m.value (fun x hx => ?_)
      have hx' : x ∈ m :: rest := List.mem_cons_of_mem m hx
      exact ⟨hty x hx', (hsame x hx' m hm).1, (hsame x hx' m hm).2⟩
    rcases hty m hm with ht | ht <;>
      simp [all_the_same_submit, allTheSameSubmitAux, ht, haux]

/-! ## Claim theorems -/

/-- C10: on the empty match set both helpers are vacuously true, so
`unique_match []` reports the empty lookup result as one addressable
field. -/
theorem C10_empty_match_is_unique :
    unique_match ([] : List Control) = true ∧
    all_the_same_checkbox ([] : List Control) = true ∧
    all_the_same_submit ([] : List Control) = true :=
  ⟨rfl, rfl, rfl⟩

/-- C1 counterexample: two hidden controls named `csrf` with differing
values `abc` and `xyz` are reported unique by `unique_match` (the
checkbox/hidden helper accepts them: both types are `hidden` and the names
agree), while the claim asserts the result is false. -/
theorem C1_counterexample :
    unique_match [⟨"hidden", "csrf", "abc"⟩, ⟨"hidden", "csrf", "xyz"⟩]
      = true := by decide

/-- C1 amended: `unique_match` is true when every match is submit/hidden
with one shared name and value (in particular for two hidden `csrf`
controls with identical value `abc`); but two hidden controls sharing a
name with differing values are still unique via the checkbox/hidden rule,
and only for non-checkbox pairs such as two submit controls does a value
difference make the match non-unique. -/
theorem C1_unique_match_amended :
    (∀ ms : List Control,
      (∀ m ∈ ms, m.type = "submit" ∨ m.type = "hidden") →
      (∀ m ∈ ms, ∀ m' ∈ ms, m.name = m'.name ∧ m.value = m'.value) →
      unique_match ms = true) ∧
    unique_match [⟨"hidden", "csrf", "abc"⟩, ⟨"hidden", "csrf", "abc"⟩]
      = true ∧
    unique_match [⟨"hidden", "csrf", "abc"⟩, ⟨"hidden", "csrf", "xyz"⟩]
      = true ∧
    unique_match [⟨"submit", "go", "a"⟩, ⟨"submit", "go", "b"⟩] = false := by
  refine ⟨fun ms hty hsame => ?_, by decide, by decide, by decide⟩
  simp [unique_match, all_the_same_submit_of_same ms hty hsame]

/-- C1 witness: the amended general rule applied to a concrete
submit/hidden pair sharing name and value. -/
theorem C1_unique_match_amended_witness :
    unique_match [⟨"hidden", "x", "v"⟩, ⟨"submit", "x", "v"⟩] = true :=
  C1_unique_match_amended.1 _ (by decide) (by decide)

/-- C3: `make_boolean` lower-cases and strips its input, then recognizes in
order: literal `true`/`false`; else integer parse with nonzero-is-true;
else literal `+`/`-`; else literal `on`/`off`; anything else raises.  In
particular `True ↦ true`, `0 ↦ false`, `-1 ↦ true`, `- ↦ false`,
`on ↦ true`, and `maybe` raises. -/
theorem C3_make_boolean (s : String) :
    (pyStrip (pyLower s) = "true" → make_boolean s = .ok true) ∧
    (pyStrip (pyLower s) = "false" → make_boolean s = .ok false) ∧
    (∀ i : Int, pyStrip (pyLower s) ≠ "true" → pyStrip (pyLower s) ≠ "false" →
      pyParseInt (pyStrip (pyLower s)) = some i →
      make_boolean s = .ok (i != 0)) ∧
    (pyStrip (pyLower s) ≠ "true" → pyStrip (pyLower s) ≠ "false" →
      pyParseInt (pyStrip (pyLower s)) = none →
      pyStrip (pyLower s) = "+" ∨ pyStrip (pyLower s) = "-" →
      make_boolean s = .ok (pyStrip (pyLower s) = "+")) ∧
    (pyStrip (pyLower s) ≠ "true" → pyStrip (pyLower s) ≠ "false" →
      pyParseInt (pyStrip (pyLower s)) = none →
      pyStrip (pyLower s) ≠ "+" → pyStrip (pyLower s) ≠ "-" →
      pyStrip (pyLower s) = "on" ∨ pyStrip (pyLower s) = "off" →
      make_boolean s = .ok (pyStrip (pyLower s) = "on")) ∧
    (pyStrip (pyLower s) ≠ "true" → pyStrip (pyLower s) ≠ "false" →
      pyParseInt (pyStrip (pyLower s)) = none →
      pyStrip (pyLower s) ≠ "+" → pyStrip (pyLower s) ≠ "-" →
      pyStrip (pyLower s) ≠ "on" → pyStrip (pyLower s) ≠ "off" →
      make_boolean s =
        .error ("unable to convert " ++ pyStrip (pyLower s)
          ++ " into true/false")) ∧
    make_boolean "True" = .ok true ∧
    make_boolean "0" = .ok false ∧
    make_boolean "-1" = .ok true ∧
    make_boolean "-" = .ok false ∧
    make_boolean "on" = .ok true ∧
    make_boolean "maybe" =
      .error "unable to convert maybe into true/false" := by
  refine ⟨?_, ?_, ?_, ?_, ?_, ?_, rfl, rfl, rfl, rfl, rfl, rfl⟩
  · intro h; simp [make_boolean, h]
  · intro h; simp [make_boolean, h]
  · intro i h1 h2 h3; simp [make_boolean, h1, h2, h3]
  · intro h1 h2 h3 h4
    rcases h4 with h4 | h4 <;> rw [h4] at h3 <;>
      simp [make_boolean, h1, h2, h3, h4]
  · intro h1 h2 h3 h4 h5 h6
    rcases h6 with h6 | h6 <;> rw [h6] at h3 <;>
      simp [make_boolean, h1, h2, h3, h4, h5, h6]
  · intro h1 h2 h3 h4 h5 h6 h7
    simp [make_boolean, h1, h2, h3, h4, h5, h6, h7]

/-- C3 witness: the ordered-recognition rules applied at concrete inputs. -/
theorem C3_make_boolean_witness :
    make_boolean " ON " = .ok true ∧ make_boolean "007" = .ok true :=
  ⟨(C3_make_boolean " ON ").2.2.2.2.1 (by decide) (by decide) (by decide)
      (by decide) (by decide) (Or.inl (by decide)),
    (C3_make_boolean "007").2.2.1 7 (by decide) (by decide) (by decide)⟩

/-- C4 counterexample: with two options sharing the trimmed display text
`Red` (submit values `r` and `b`), `dict(zip(option_names, options))`
collapses to the single pair `Red ↦ b` — dict key overwrite is guaranteed,
and a one-pair dict has only one iteration order, so the order abstraction
is immaterial here — and setting the value `r`, the trimmed submit value
of the first option, raises instead of selecting it, contrary to the
claim's per-option matching. -/
theorem C4_counterexample :
    pyDict ([⟨"Red", "r"⟩, (⟨"Red", "b"⟩ : SelectOption)].map
      (fun o => (pyStrip o.text, pyStrip o.optValue))) = [("Red", "b")] ∧
    (∃ o ∈ [⟨"Red", "r"⟩, (⟨"Red", "b"⟩ : SelectOption)],
      pyStrip o.optValue = "r") ∧
    set_form_control_value (fun l => l)
      (.selectElem [⟨"Red", "r"⟩, ⟨"Red", "b"⟩] []) "r"
      = .error "Attempt to set an invalid value" :=
  ⟨by decide, ⟨⟨"Red", "r"⟩, by decide, by decide⟩, by rfl⟩

/-- C4 amended: the options are first collapsed into
`dict(zip(option_names, options))` — trimmed display text to trimmed
submit value, a later option overwriting an earlier one with the same
trimmed display text — and the dict is traversed in the unspecified order
of a Python 2 dict.  For a select whose options have pairwise distinct
trimmed display texts, with `v` the value after stripping an optional
`+`/`-` prefix: when no option's trimmed display text or trimmed submit
value equals `v`, the call fails with the `TwillException`
(InvalidValueError) `Attempt to set an invalid value`; when some option
matches and the call is adding (no `-` prefix), some matching option's
trimmed submit value is added to the value set, and the added value is
determined independently of the traversal order whenever all matching
options share one trimmed submit value — in particular for a unique
match. -/
theorem C4_select_assignment
    (dictOrder : List (String × String) → List (String × String))
    (opts : List SelectOption) (vs : List String) (w v : String)
    (hperm : ∀ l, (dictOrder l).Perm l)
    (hdist : (opts.map fun o => pyStrip o.text).Nodup)
    (hv : v = if pyStartsWith w "-" = true then pyDrop w 1
      else if pyStartsWith w "+" = true then pyDrop w 1 else w) :
    ((∀ o ∈ opts, ¬ optionMatches v o) →
      set_form_control_value dictOrder (.selectElem opts vs) w
        = .error "Attempt to set an invalid value") ∧
    (pyStartsWith w "-" = false →
      ∀ o ∈ opts, optionMatches v o →
      (∃ o' ∈ opts, optionMatches v o' ∧
        set_form_control_value dictOrder (.selectElem opts vs) w
          = .ok (.selectElem opts (setValueAdd vs (pyStrip o'.optValue)))) ∧
      ((∀ o' ∈ opts, optionMatches v o' →
          pyStrip o'.optValue = pyStrip o.optValue) →
        set_form_control_value dictOrder (.selectElem opts vs) w
          = .ok (.selectElem opts (setValueAdd vs (pyStrip o.optValue))))) := by
  have hkeys :
      ((opts.map fun o => (pyStrip o.text, pyStrip o.optValue)).map
        Prod.fst).Nodup := by
    simpa [List.map_map, Function.comp] using hdist
  have hdict := pyDict_eq_self _ hkeys
  constructor
  · intro hnone
    have hfind : ((dictOrder (pyDict (opts.map fun o =>
        (pyStrip o.text, pyStrip o.optValue)))).find?
        (fun p => v = p.1 || v = p.2)) = none := by
      rw [List.find?_eq_none]
      intro q hq
      have hq' : q ∈ opts.map fun o => (pyStrip o.text, pyStrip o.optValue) := by
        rw [← hdict]
        exact (hperm _).mem_iff.mp hq
      obtain ⟨o, ho, rfl⟩ := List.mem_map.mp hq'
      exact hnone o ho
    simp only [set_form_control_value]
    rw [← hv, hfind]
  · intro hminus o ho hmatch
    have hsome : ((dictOrder (pyDict (opts.map fun o =>
        (pyStrip o.text, pyStrip o.optValue)))).find?
        (fun p => v = p.1 || v = p.2)).isSome := by
      rw [List.find?_isSome]
      refine ⟨(pyStrip o.text, pyStrip o.optValue), ?_, hmatch⟩
      refine (hperm _).mem_iff.mpr ?_
      rw [hdict]
      exact List.mem_map_of_mem _ ho
    obtain ⟨q, hq⟩ := Option.isSome_iff_exists.mp hsome
    have hqpred := List.find?_some hq
    have hqmem : q ∈ opts.map fun o => (pyStrip o.text, pyStrip o.optValue) := by
      rw [← hdict]
      exact (hperm _).mem_iff.mp (List.mem_of_find?_eq_some hq)
    obtain ⟨o', ho', rfl⟩ := List.mem_map.mp hqmem
    have hres : set_form_control_value dictOrder (.selectElem opts vs) w
        = .ok (.selectElem opts
          (setValueAdd vs (pyStrip o'.optValue))) := by
      simp only [set_form_control_value]
      rw [← hv, hminus, hq]
      rfl
    refine ⟨⟨o', ho', hqpred, hres⟩, fun huniq => ?_⟩
    rw [hres, huniq o' ho' hqpred]

/-- C4 witness: the amended rule on options `Red ↦ r`, `Blue ↦ b` under
the identity traversal order: values `Red`, `r` and the prefixed `+Red`
all add submit value `r` (each has a unique matching option), and `Purple`
raises. -/
theorem C4_select_assignment_witness :
    set_form_control_value (fun l => l)
        (.selectElem [⟨"Red", "r"⟩, ⟨"Blue", "b"⟩] []) "Red"
      = .ok (.selectElem [⟨"Red", "r"⟩, ⟨"Blue", "b"⟩] ["r"]) ∧
    set_form_control_value (fun l => l)
        (.selectElem [⟨"Red", "r"⟩, ⟨"Blue", "b"⟩] []) "r"
      = .ok (.selectElem [⟨"Red", "r"⟩, ⟨"Blue", "b"⟩] ["r"]) ∧
    set_form_control_value (fun l => l)
        (.selectElem [⟨"Red", "r"⟩, ⟨"Blue", "b"⟩] []) "+Red"
      = .ok (.selectElem [⟨"Red", "r"⟩, ⟨"Blue", "b"⟩] ["r"]) ∧
    set_form_control_value (fun l => l)
        (.selectElem [⟨"Red", "r"⟩, ⟨"Blue", "b"⟩] []) "Purple"
      = .error "Attempt to set an invalid value" :=
  ⟨((C4_select_assignment (fun l => l) [⟨"Red", "r"⟩, ⟨"Blue", "b"⟩] []
      "Red" "Red" (fun l => List.Perm.refl l) (by decide) (by decide)).2
      (by decide) ⟨"Red", "r"⟩ (by decide) (by decide)).2 (by decide),
   ((C4_select_assignment (fun l => l) [⟨"Red", "r"⟩, ⟨"Blue", "b"⟩] []
      "r" "r" (fun l => List.Perm.refl l) (by decide) (by decide)).2
      (by decide) ⟨"Red", "r"⟩ (by decide) (by decide)).2 (by decide),
   ((C4_select_assignment (fun l => l) [⟨"Red", "r"⟩, ⟨"Blue", "b"⟩] []
      "+Red" "Red" (fun l => List.Perm.refl l) (by decide) (by decide)).2
      (by decide) ⟨"Red", "r"⟩ (by decide) (by decide)).2 (by decide),
   (C4_select_assignment (fun l => l) [⟨"Red", "r"⟩, ⟨"Blue", "b"⟩] []
      "Purple" "Purple" (fun l => List.Perm.refl l) (by decide)
      (by decide)).1 (by decide)⟩

/-- C7: a `-`-prefixed value for which the dict traversal — in whatever
order the Python 2 dict yields its pairs — resolves a pair whose submit
value is absent from the control's value set is removed as a silent no-op:
no error, value set unchanged. -/
theorem C7_select_remove_absent
    (dictOrder : List (String × String) → List (String × String))
    (opts : List SelectOption) (vs : List String)
    (w : String) (p : String × String)
    (hw : pyStartsWith w "-" = true)
    (hfind : (dictOrder (pyDict (opts.map fun o =>
        (pyStrip o.text, pyStrip o.optValue)))).find?
        (fun q => pyDrop w 1 = q.1 || pyDrop w 1 = q.2) = some p)
    (habs : p.2 ∉ vs) :
    set_form_control_value dictOrder (.selectElem opts vs) w
      = .ok (.selectElem opts vs) := by
  have hrem : setValueRemove vs p.2 = vs := by
    rw [setValueRemove, List.filter_eq_self]
    intro a ha
    rw [decide_eq_true_eq]
    exact fun he => habs (he ▸ ha)
  simp only [set_form_control_value, hw, if_true]
  rw [hfind]
  simp [hrem]

/-- C7 witness: removing `Red` (submit value `r`) from a select whose value
set `{b}` does not contain `r` leaves the control unchanged, here under
the identity traversal order. -/
theorem C7_select_remove_absent_witness :
    set_form_control_value (fun l => l)
        (.selectElem [⟨"Red", "r"⟩] ["b"]) "-Red"
      = .ok (.selectElem [⟨"Red", "r"⟩] ["b"]) :=
  C7_select_remove_absent (fun l => l) [⟨"Red", "r"⟩] ["b"] "-Red"
    ("Red", "r") (by decide) (by decide) (by decide)

/-- C8: checkbox-group assignment: a `-`-prefixed value removes the
remainder from the value set (no-op when absent), a `+`-prefixed or plain
value inserts the literal value; with the claim's `{blue}` examples. -/
theorem C8_checkbox_group
    (dictOrder : List (String × String) → List (String × String))
    (vs : List String) (w : String) :
    (pyStartsWith w "-" = true →
      set_form_control_value dictOrder (.checkboxGroup vs) w
        = .ok (.checkboxGroup (setValueRemove vs (pyDrop w 1)))) ∧
    (pyStartsWith w "-" = false → pyStartsWith w "+" = true →
      set_form_control_value dictOrder (.checkboxGroup vs) w
        = .ok (.checkboxGroup (setValueAdd vs (pyDrop w 1)))) ∧
    (pyStartsWith w "-" = false → pyStartsWith w "+" = false →
      set_form_control_value dictOrder (.checkboxGroup vs) w
        = .ok (.checkboxGroup (setValueAdd vs w))) ∧
    (∀ u x : String, (x ∈ setValueAdd vs u ↔ x ∈ vs ∨ x = u) ∧
      (x ∈ setValueRemove vs u ↔ x ∈ vs ∧ x ≠ u)) ∧
    (∀ u : String, u ∉ vs → setValueRemove vs u = vs) ∧
    set_form_control_value dictOrder (.checkboxGroup ["blue"]) "+red"
      = .ok (.checkboxGroup ["blue", "red"]) ∧
    set_form_control_value dictOrder (.checkboxGroup ["blue", "red"]) "-blue"
      = .ok (.checkboxGroup ["red"]) ∧
    set_form_control_value dictOrder (.checkboxGroup ["blue", "red"]) "-green"
      = .ok (.checkboxGroup ["blue", "red"]) := by
  refine ⟨?_, ?_, ?_, ?_, ?_, rfl, rfl, rfl⟩
  · intro h; simp [set_form_control_value, h]
  · intro h h'; simp [set_form_control_value, h, h']
  · intro h h'; simp [set_form_control_value, h, h']
  · intro u x
    constructor
    · by_cases hc : u ∈ vs
      · have : vs.contains u = true := by simpa [List.contains, List.elem_iff]
        simp only [setValueAdd, this, if_true]
        constructor
        · exact fun hx => Or.inl hx
        · rintro (hx | rfl) <;> [exact hx; exact hc]
      · have : vs.contains u = false := by
          simp [List.contains]
          simpa [List.elem_iff] using hc
        simp [setValueAdd, this, hc, List.mem_append]
    · simp [setValueRemove, List.mem_filter]
  · intro u hu
    rw [setValueRemove, List.filter_eq_self]
    intro a ha
    rw [decide_eq_true_eq]
    exact fun he => hu (he ▸ ha)

/-- C8 witness: the general add/remove rules applied at concrete values. -/
theorem C8_checkbox_group_witness :
    set_form_control_value (fun l => l) (.checkboxGroup ["a"]) "b"
      = .ok (.checkboxGroup (setValueAdd ["a"] "b")) ∧
    set_form_control_value (fun l => l) (.checkboxGroup ["a", "b"]) "-b"
      = .ok (.checkboxGroup (setValueRemove ["a", "b"] "b")) :=
  ⟨(C8_checkbox_group (fun l => l) ["a"] "b").2.2.1 (by decide) (by decide),
   (C8_checkbox_group (fun l => l) ["a", "b"] "-b").1 (by decide)⟩

/-- C2 counterexample: a document whose only element is an orphaned
`select` (a form-input-like element lacking a form ancestor) produces no
synthetic wrapper form at all — the xpath collects only `input` elements —
so `forms` stays empty instead of starting with a synthetic form holding
the orphan. -/
theorem C2_counterexample :
    (Document.mk [⟨"select", false, ""⟩] []).elements.any
      (fun e => (e.tag = "input" || e.tag = "select" || e.tag = "textarea"
        || e.tag = "button") && !e.insideForm) = true ∧
    resultForms (Document.mk [⟨"select", false, ""⟩] []) = [] := by decide

/-- C2 amended: only orphaned `input` elements are collected; when any
exist the forms list is one synthetic id-less, name-less form holding
exactly those orphans in their original relative order, followed by the
document forms; with no orphaned inputs the forms list is the document
forms unchanged. -/
theorem C2_result_forms (d : Document) :
    (orphanInputs d ≠ [] →
      resultForms d = ⟨none, none, orphanInputs d⟩ :: d.docForms) ∧
    (∀ e, e ∈ orphanInputs d ↔
      e ∈ d.elements ∧ e.tag = "input" ∧ e.insideForm = false) ∧
    (orphanInputs d).Sublist d.elements ∧
    (orphanInputs d = [] → resultForms d = d.docForms) := by
  refine ⟨?_, ?_, ?_, ?_⟩
  · intro h
    simp [resultForms, List.isEmpty_iff, h]
  · intro e
    simp [orphanInputs, List.mem_filter, and_assoc]
  · exact List.filter_sublist d.elements
  · intro h
    simp [resultForms, h]

/-- C2 witness: the amended construction at a document with one orphaned
input and one document form. -/
theorem C2_result_forms_witness :
    resultForms (Document.mk [⟨"input", false, ""⟩] [⟨some "f", none, []⟩])
      = ⟨none, none,
          orphanInputs (Document.mk [⟨"input", false, ""⟩]
            [⟨some "f", none, []⟩])⟩ :: [⟨some "f", none, []⟩] :=
  (C2_result_forms _).1 (by decide)

/-- C5: a string form identifier resolves by trying, in order and
returning on first success: exact (truthy) id match; then the identifier
as a pattern searched against each (truthy) form name in forms-list order;
then the 1-based ordinal parse.  In particular a form with `id="2"` in a
one-form list resolves `form("2")` by id even though ordinal 2 is out of
range. -/
theorem C5_form_resolution (search : String → String → Bool)
    (forms : List Form) (s : String) :
    ((∃ f ∈ forms, formIdMatches s f) →
      wrapper_form search forms (.str s) = forms.find? (formIdMatches s)) ∧
    ((∀ f ∈ forms, ¬ formIdMatches s f) →
      (∃ f ∈ forms, formNameMatches search s f) →
      wrapper_form search forms (.str s)
        = forms.find? (formNameMatches search s)) ∧
    ((∀ f ∈ forms, ¬ formIdMatches s f) →
      (∀ f ∈ forms, ¬ formNameMatches search s f) →
      wrapper_form search forms (.str s)
        = formByNumber forms (pyParseInt s)) ∧
    wrapper_form (fun _ _ => false) [⟨some "2", none, []⟩] (.str "2")
      = some ⟨some "2", none, []⟩ := by
  refine ⟨?_, ?_, ?_, rfl⟩
  · intro h
    have : (forms.find? (formIdMatches s)).isSome := by
      rw [List.find?_isSome]
      simpa using h
    obtain ⟨g, hg⟩ := Option.isSome_iff_exists.mp this
    simp [wrapper_form, hg]
  · intro hid h
    have hidn : forms.find? (formIdMatches s) = none := by
      rw [List.find?_eq_none]; exact hid
    have : (forms.find? (formNameMatches search s)).isSome := by
      rw [List.find?_isSome]
      simpa using h
    obtain ⟨g, hg⟩ := Option.isSome_iff_exists.mp this
    simp [wrapper_form, hidn, hg]
  · intro hid hname
    have hidn : forms.find? (formIdMatches s) = none := by
      rw [List.find?_eq_none]; exact hid
    have hnamen : forms.find? (formNameMatches search s) = none := by
      rw [List.find?_eq_none]; exact hname
    simp [wrapper_form, hidn, hnamen]

/-- C5 witness: id resolution at a concrete two-form list where the second
form carries the id. -/
theorem C5_form_resolution_witness :
    wrapper_form (fun _ _ => false)
        [⟨none, none, []⟩, ⟨some "x", none, []⟩] (.str "x")
      = [⟨none, none, []⟩, ⟨some "x", none, []⟩].find? (formIdMatches "x") :=
  (C5_form_resolution (fun _ _ => false) _ "x").1
    ⟨⟨some "x", none, []⟩, by decide, by decide⟩

/-- C6: an integer form identifier n returns forms[n-1] when
1 ≤ n ≤ len(forms) and the not-found sentinel `None` (no exception) for
every n outside that range, including 0 and negative numbers. -/
theorem C6_form_by_integer (search : String → String → Bool)
    (forms : List Form) (n : Int) :
    (1 ≤ n → n ≤ (forms.length : Int) →
      wrapper_form search forms (.num n) = forms.get? (n - 1).toNat ∧
      (forms.get? (n - 1).toNat).isSome = true) ∧
    ((n < 1 ∨ (forms.length : Int) < n) →
      wrapper_form search forms (.num n) = none) := by
  constructor
  · intro h1 h2
    have hb : (n - 1).toNat < forms.length := by omega
    constructor
    · simp only [wrapper_form, formByNumber]
      rw [if_pos ⟨by omega, by omega⟩]
    · rw [Option.isSome_iff_exists]
      exact ⟨forms.get ⟨(n - 1).toNat, hb⟩, List.get?_eq_get hb⟩
  · intro h
    simp only [wrapper_form, formByNumber]
    rcases h with h | h <;> rw [if_neg (by omega)]

/-- C6 witness: ordinal 2 of a two-form list is the second form, and the
in-range lookup is some. -/
theorem C6_form_by_integer_witness :
    wrapper_form (fun _ _ => false)
        [⟨none, none, []⟩, ⟨some "b", none, []⟩] (.num 2)
      = [⟨none, none, []⟩, ⟨some "b", none, []⟩].get? ((2 : Int) - 1).toNat ∧
    ([⟨none, none, []⟩, (⟨some "b", none, []⟩ : Form)].get?
      ((2 : Int) - 1).toNat).isSome = true :=
  (C6_form_by_integer (fun _ _ => false) _ 2).1 (by decide) (by decide)

/-- C9: the title view returns the text of the first `title` element, and
on a document with no `title` element the lookup fails (the selector
returns nothing and the indexing error propagates), modelled as `none`. -/
theorem C9_wrapper_title (d : Document) :
    (∀ t : Element, d.elements.find? (fun e => e.tag = "title") = some t →
      wrapper_title d = some t.text) ∧
    ((∀ e ∈ d.elements, e.tag ≠ "title") → wrapper_title d = none) := by
  constructor
  · intro t ht
    have hh : (d.elements.filter (fun e => decide (e.tag = "title"))).head?
        = some t := by
      rw [head?_filter_eq_find?]
      exact ht
    rcases hfilter : d.elements.filter (fun e => decide (e.tag = "title"))
      with _ | ⟨a, rest⟩
    · rw [hfilter] at hh; cases hh
    · rw [hfilter] at hh
      simp only [List.head?_cons, Option.some.injEq] at hh
      simp [wrapper_title, hfilter, hh]
  · intro h
    have hnil : d.elements.filter (fun e => decide (e.tag = "title")) = [] := by
      rw [List.filter_eq_nil_iff]
      intro a ha
      simp [h a ha]
    simp [wrapper_title, hnil]

/-- C9 witness: the first of two titles is returned; a title-less page
gives the failure sentinel. -/
theorem C9_wrapper_title_witness :
    wrapper_title (Document.mk [⟨"p", false, "a"⟩, ⟨"title", false, "Hello"⟩,
        ⟨"title", false, "Other"⟩] []) = some "Hello" ∧
    wrapper_title (Document.mk [⟨"p", false, "a"⟩] []) = none :=
  ⟨(C9_wrapper_title _).1 ⟨"title", false, "Hello"⟩ (by decide),
   (C9_wrapper_title _).2 (by decide)⟩

end Twill
